import Mathlib

/-!
Formal model of the Rate-Limiter repository.

The repository's only source file is `api-server/examples/python-client.py`,
a thin HTTP client (`RateLimiterClient`) for a rate-limiter API.  The first
part of this file embeds that client: each Python method is modelled as a
pure function from the client state and the method's arguments to the HTTP
request it issues (method, URL, JSON body).  The second part models the
token-bucket engine that the specification describes (the engine code is not
in the repository; those definitions are modelled from the spec and say so
in their doc comments).
-/

namespace RateLimiter

/-- JSON values occurring in the client's request bodies: every body the
client builds is a flat object of string and integer fields. -/
inductive JsonVal where
  | str (s : String)
  | int (n : Int)
deriving DecidableEq

/-- An HTTP request as assembled by the Python client: the HTTP method, the
full URL string, and the optional JSON body (a flat object, modelled as an
association list in the order the fields are written in the source). -/
structure HttpRequest where
  method : String
  url : String
  body : Option (List (String × JsonVal))
deriving DecidableEq

/-- Value of the field named `key` of a request body, when present. -/
def HttpRequest.keyField (r : HttpRequest) : Option JsonVal :=
  match r.body with
  | some l => l.lookup ("key")
  | none => none

/-- Python's `s.rstrip('/')`: remove every trailing `'/'` character. -/
def rstripSlashes (s : String) : String :=
  String.mk ((s.data.reverse.dropWhile (fun c => c = '/')).reverse)

/-- Client state: `__init__` stores `base_url.rstrip('/')`; the requests
session only carries a constant Content-Type header and is not modelled
beyond that. -/
structure RateLimiterClient where
  base_url : String
deriving DecidableEq

/-- The constructor `RateLimiterClient.__init__`. -/
def RateLimiterClient.init (base_url : String) : RateLimiterClient :=
  { base_url := rstripSlashes base_url }

/-- Method `health_check`: GET `<base_url>/api/health`, no body. -/
def RateLimiterClient.health_check (c : RateLimiterClient) : HttpRequest :=
  { method := "GET", url := c.base_url ++ "/api/health", body := none }

/-- Method `get_metrics`: GET `<base_url>/api/metrics`, no body. -/
def RateLimiterClient.get_metrics (c : RateLimiterClient) : HttpRequest :=
  { method := "GET", url := c.base_url ++ "/api/metrics", body := none }

/-- Method `check_rate_limit(key, capacity=100, refill_rate=10)`: POST to
`<base_url>/api/v1/limiter/check` with body
`{"key": key, "capacity": capacity, "refillRate": refill_rate}`.  The two
Python keyword defaults are modelled by `Option` arguments resolved with
`Option.getD`: `none` is an omitted argument. -/
def RateLimiterClient.check_rate_limit (c : RateLimiterClient) (key : String)
    (capacity : Option Int) (refill_rate : Option Int) : HttpRequest :=
  { method := "POST", url := c.base_url ++ "/api/v1/limiter/check",
    body := some [("key", JsonVal.str key),
                  ("capacity", JsonVal.int (capacity.getD 100)),
                  ("refillRate", JsonVal.int (refill_rate.getD 10))] }

/-- Method `apply_penalty(key, points)`: POST to
`<base_url>/api/v1/limiter/penalty` with body `{"key": key, "points": points}`. -/
def RateLimiterClient.apply_penalty (c : RateLimiterClient) (key : String)
    (points : Int) : HttpRequest :=
  { method := "POST", url := c.base_url ++ "/api/v1/limiter/penalty",
    body := some [("key", JsonVal.str key), ("points", JsonVal.int points)] }

/-- Method `apply_reward(key, points)`: POST to
`<base_url>/api/v1/limiter/reward` with body `{"key": key, "points": points}`. -/
def RateLimiterClient.apply_reward (c : RateLimiterClient) (key : String)
    (points : Int) : HttpRequest :=
  { method := "POST", url := c.base_url ++ "/api/v1/limiter/reward",
    body := some [("key", JsonVal.str key), ("points", JsonVal.int points)] }

/-- Method `block_key(key, duration)`: POST to
`<base_url>/api/v1/limiter/block` with body `{"key": key, "duration": duration}`
(duration in milliseconds). -/
def RateLimiterClient.block_key (c : RateLimiterClient) (key : String)
    (duration : Int) : HttpRequest :=
  { method := "POST", url := c.base_url ++ "/api/v1/limiter/block",
    body := some [("key", JsonVal.str key), ("duration", JsonVal.int duration)] }

/-- Method `unblock_key(key)`: POST to `<base_url>/api/v1/limiter/unblock`
with body `{"key": key}`. -/
def RateLimiterClient.unblock_key (c : RateLimiterClient) (key : String) :
    HttpRequest :=
  { method := "POST", url := c.base_url ++ "/api/v1/limiter/unblock",
    body := some [("key", JsonVal.str key)] }

/-- Method `get_status(key)`: GET `<base_url>/api/v1/limiter/status/{key}`,
the key interpolated into the path by an f-string, no body. -/
def RateLimiterClient.get_status (c : RateLimiterClient) (key : String) :
    HttpRequest :=
  { method := "GET", url := c.base_url ++ "/api/v1/limiter/status/" ++ key,
    body := none }

/-- Method `reset_limiter(key)`: POST `<base_url>/api/v1/limiter/reset/{key}`,
the key interpolated into the path by an f-string, no body. -/
def RateLimiterClient.reset_limiter (c : RateLimiterClient) (key : String) :
    HttpRequest :=
  { method := "POST", url := c.base_url ++ "/api/v1/limiter/reset/" ++ key,
    body := none }

/-- Method `delete_limiter(key)`: DELETE `<base_url>/api/v1/limiter/{key}`,
the key interpolated into the path by an f-string, no body. -/
def RateLimiterClient.delete_limiter (c : RateLimiterClient) (key : String) :
    HttpRequest :=
  { method := "DELETE", url := c.base_url ++ "/api/v1/limiter/" ++ key,
    body := none }

/-- Method `list_limiters()`: GET `<base_url>/api/v1/limiters`, no body,
no key argument. -/
def RateLimiterClient.list_limiters (c : RateLimiterClient) : HttpRequest :=
  { method := "GET", url := c.base_url ++ "/api/v1/limiters", body := none }

/-- One invocation of a client method, carrying exactly the arguments the
corresponding Python method takes (the key first, where it takes one). -/
inductive Op where
  | check (key : String) (capacity : Option Int) (refill_rate : Option Int)
  | penalty (key : String) (points : Int)
  | reward (key : String) (points : Int)
  | block (key : String) (duration : Int)
  | unblock (key : String)
  | status (key : String)
  | reset (key : String)
  | delete (key : String)
  | list
  | health
  | metrics

/-- The name of a client operation. -/
inductive OpName where
  | check
  | penalty
  | reward
  | block
  | unblock
  | status
  | reset
  | delete
  | list
  | health
  | metrics
deriving DecidableEq, Fintype

/-- Name of the method an invocation is for. -/
def Op.name : Op → OpName
  | .check _ _ _ => .check
  | .penalty _ _ => .penalty
  | .reward _ _ => .reward
  | .block _ _ => .block
  | .unblock _ => .unblock
  | .status _ => .status
  | .reset _ => .reset
  | .delete _ => .delete
  | .list => .list
  | .health => .health
  | .metrics => .metrics

/-- The key argument of an invocation: the first parameter of every per-key
method, absent for `list_limiters`, `health_check` and `get_metrics`. -/
def Op.keyArg : Op → Option String
  | .check k _ _ => some k
  | .penalty k _ => some k
  | .reward k _ => some k
  | .block k _ => some k
  | .unblock k => some k
  | .status k => some k
  | .reset k => some k
  | .delete k => some k
  | .list => none
  | .health => none
  | .metrics => none

/-- The request a client builds for an invocation: pure dispatch onto the
eleven methods of the Python class (its complete public interface). -/
def RateLimiterClient.dispatch (c : RateLimiterClient) : Op → HttpRequest
  | .check k cap rr => c.check_rate_limit k cap rr
  | .penalty k p => c.apply_penalty k p
  | .reward k p => c.apply_reward k p
  | .block k d => c.block_key k d
  | .unblock k => c.unblock_key k
  | .status k => c.get_status k
  | .reset k => c.reset_limiter k
  | .delete k => c.delete_limiter k
  | .list => c.list_limiters
  | .health => c.health_check
  | .metrics => c.get_metrics

/-- Executing a method also yields the client state afterwards.  No Python
method of the class assigns to `self`, so the post-state is the pre-state. -/
def RateLimiterClient.run (c : RateLimiterClient) (op : Op) :
    HttpRequest × RateLimiterClient :=
  (c.dispatch op, c)

/-- The per-key operations of the client, in source order. -/
def perKeyNames : List OpName :=
  [.check, .penalty, .reward, .block, .unblock, .status, .reset, .delete, .list]

/-- The process-wide query operations of the client. -/
def processWideNames : List OpName :=
  [.health, .metrics]

/-- A string of `n` slash characters, for stating trailing-slash facts. -/
def slashes (n : Nat) : String :=
  String.mk (List.replicate n '/')

/-- Modelled from the spec: the engine behind the API is not in the
repository; spec §3 gives the per-key `Bucket` state.  Timestamps are in
milliseconds, `tokens` is real-valued (rational here) in `[0, capacity]`. -/
structure Bucket where
  key : String
  capacity : Rat
  tokens : Rat
  refillRate : Rat
  lastRefillAt : Rat
  blockedUntil : Option Rat
deriving DecidableEq

/-- Modelled from the spec: the structured result of a `check` call
(spec §4.1), with the optional `reason` field. -/
structure CheckResult where
  allowed : Bool
  tokens : Rat
  capacity : Rat
  reason : Option String
deriving DecidableEq

/-- Modelled from the spec: lazy creation of a bucket on first reference to
an unknown key, with caller-supplied or default capacity and refill rate
(spec §3 lifecycle); a fresh bucket is full. -/
def Bucket.create (key : String) (capacity : Rat) (refillRate : Rat)
    (now : Rat) : Bucket :=
  { key := key, capacity := capacity, tokens := capacity,
    refillRate := refillRate, lastRefillAt := now, blockedUntil := none }

/-- Modelled from the spec: `refill(now)` (spec §4.1), with `now` and
`lastRefillAt` in milliseconds so elapsed seconds is the difference over
1000. -/
def Bucket.refill (b : Bucket) (now : Rat) : Bucket :=
  { b with
    tokens := min b.capacity (b.tokens + (now - b.lastRefillAt) / 1000 * b.refillRate),
    lastRefillAt := now }

/-- Modelled from the spec: step 1 of `check` (spec §4.1) — a supplied
capacity updates the bucket's ceiling and may clamp `tokens` down, never up;
a supplied refill rate replaces the stored one. -/
def Bucket.applyConfig (b : Bucket) (cap : Option Rat) (rr : Option Rat) :
    Bucket :=
  let b1 := match cap with
    | some c => { b with capacity := c, tokens := min b.tokens c }
    | none => b
  match rr with
  | some r => { b1 with refillRate := r }
  | none => b1

/-- Modelled from the spec: a bucket is blocked while `now < blockedUntil`
(spec §3). -/
def Bucket.isBlocked (b : Bucket) (now : Rat) : Bool :=
  match b.blockedUntil with
  | some t => decide (now < t)
  | none => false

/-- Modelled from the spec: `check(now, requestedCapacity?,
requestedRefillRate?)` (spec §4.1): update config, then if blocked deny with
reason blocked and no refill; else refill and consume one token if at least
one is available, otherwise deny with reason rate_limited. -/
def Bucket.check (b : Bucket) (now : Rat) (cap : Option Rat)
    (rr : Option Rat) : CheckResult × Bucket :=
  let b1 := b.applyConfig cap rr
  if b1.isBlocked now then
    ({ allowed := false, tokens := b1.tokens, capacity := b1.capacity,
       reason := some ("blocked") }, b1)
  else
    let b2 := b1.refill now
    if 1 ≤ b2.tokens then
      let b3 := { b2 with tokens := b2.tokens - 1 }
      ({ allowed := true, tokens := b3.tokens, capacity := b3.capacity,
         reason := none }, b3)
    else
      ({ allowed := false, tokens := b2.tokens, capacity := b2.capacity,
         reason := some ("rate_limited") }, b2)

/-- Modelled from the spec: `penalty(points)` clamps at zero (spec §4.1). -/
def Bucket.penalty (b : Bucket) (points : Rat) : Bucket :=
  { b with tokens := max 0 (b.tokens - points) }

/-- Modelled from the spec: `reward(points)` clamps at capacity (spec §4.1). -/
def Bucket.reward (b : Bucket) (points : Rat) : Bucket :=
  { b with tokens := min b.capacity (b.tokens + points) }

/-- Modelled from the spec: `block(now, durationMs)` sets
`blockedUntil = now + durationMs`, last writer wins (spec §4.1). -/
def Bucket.block (b : Bucket) (now : Rat) (durationMs : Rat) : Bucket :=
  { b with blockedUntil := some (now + durationMs) }

/-- Modelled from the spec: `unblock()` clears `blockedUntil`
unconditionally (spec §4.1). -/
def Bucket.unblock (b : Bucket) : Bucket :=
  { b with blockedUntil := none }

/-- Modelled from the spec: `reset(now)` restores full tokens, clears any
block and restamps the refill clock (spec §4.1). -/
def Bucket.reset (b : Bucket) (now : Rat) : Bucket :=
  { b with tokens := b.capacity, blockedUntil := none, lastRefillAt := now }

/-- One state-changing engine operation on a bucket, with the timestamp at
which it runs where the transition reads the clock. -/
inductive EOp where
  | check (now : Rat) (cap : Option Rat) (rr : Option Rat)
  | penalty (points : Rat)
  | reward (points : Rat)
  | block (now : Rat) (durationMs : Rat)
  | unblock
  | reset (now : Rat)

/-- State after one engine operation (results discarded). -/
def Bucket.applyOp (b : Bucket) : EOp → Bucket
  | .check now cap rr => (b.check now cap rr).2
  | .penalty p => b.penalty p
  | .reward p => b.reward p
  | .block now d => b.block now d
  | .unblock => b.unblock
  | .reset now => b.reset now

/-- State after a sequence of engine operations. -/
def Bucket.applyOps (b : Bucket) (ops : List EOp) : Bucket :=
  ops.foldl Bucket.applyOp b

/-- A capacity supplied on a check must be positive (spec §7 rejects
non-positive capacity as InvalidArgument). -/
def capOk : Option Rat → Prop
  | none => True
  | some c => 0 < c

/-- A refill rate supplied on a check must be non-negative (spec §3, §7). -/
def rrOk : Option Rat → Prop
  | none => True
  | some r => 0 ≤ r

/-- Validity of one operation's inputs against the current bucket: the
clock is monotonic (spec §2 Clock), points and durations are non-negative
and supplied configs are in range (spec §7). -/
def EOp.validFor (b : Bucket) : EOp → Prop
  | .check now cap rr => b.lastRefillAt ≤ now ∧ capOk cap ∧ rrOk rr
  | .penalty p => 0 ≤ p
  | .reward p => 0 ≤ p
  | .block _ d => 0 ≤ d
  | .unblock => True
  | .reset _ => True

/-- Validity of a whole operation sequence, each step judged against the
state reached so far. -/
def Bucket.validTrace (b : Bucket) : List EOp → Prop
  | [] => True
  | op :: ops => EOp.validFor b op ∧ Bucket.validTrace (b.applyOp op) ops

/-- The bucket well-formedness the spec maintains: tokens within
`[0, capacity]` and a non-negative refill rate (spec §3). -/
def BucketInv (b : Bucket) : Prop :=
  0 ≤ b.tokens ∧ b.tokens ≤ b.capacity ∧ 0 ≤ b.refillRate

/-- Repeated `check` calls at one instant, collecting each call's result:
the client demo's exhaustion loop compressed to a negligible time window. -/
def runChecks (b : Bucket) (now : Rat) (cap : Option Rat) (rr : Option Rat) :
    Nat → List CheckResult × Bucket
  | 0 => ([], b)
  | Nat.succ n =>
    let r := b.check now cap rr
    let rest := runChecks r.2 now cap rr n
    (r.1 :: rest.1, rest.2)

/-- The six results of the exhaustion scenario: a fresh key with capacity 5
and refill rate 1, checked six times in a negligible time window. -/
def demoChecks : List CheckResult :=
  (runChecks (Bucket.create ("demo-python-user") 5 1 0) 0 (some 5) (some 1) 6).1

/-- Dropping while a predicate holds ignores a leading block of characters
the predicate accepts. -/
theorem dropWhile_replicate_append (p : Char → Bool) (ch : Char)
    (hc : p ch = true) (n : Nat) (l : List Char) :
    List.dropWhile p (List.replicate n ch ++ l) = List.dropWhile p l := by
  induction n with
  | zero => simp
  | succ m ih => simp [List.replicate_succ, List.dropWhile_cons, hc, ih]

/-- Appending trailing slashes is erased by `rstrip('/')`. -/
theorem rstripSlashes_append_slashes (s : String) (n : Nat) :
    rstripSlashes (s ++ slashes n) = rstripSlashes s := by
  have h : (s ++ slashes n).data = s.data ++ List.replicate n '/' :=
    String.data_append s (slashes n)
  unfold rstripSlashes
  rw [h, List.reverse_append, List.reverse_replicate,
    dropWhile_replicate_append _ '/' (by decide) n]

/-- C2: the client's check operation POSTs to
`<base_url>/api/v1/limiter/check` with body exactly
`{"key": key, "capacity": capacity, "refillRate": refill_rate}`; both
parameters are optional and default to 100 and 10 when omitted, and both
are transmitted on every check. -/
theorem c2_check_request_shape (b : String) (key : String)
    (capacity : Option Int) (refill_rate : Option Int) :
    ((RateLimiterClient.init b).check_rate_limit key capacity refill_rate).method = "POST" ∧
    ((RateLimiterClient.init b).check_rate_limit key capacity refill_rate).url =
      (RateLimiterClient.init b).base_url ++ "/api/v1/limiter/check" ∧
    ((RateLimiterClient.init b).check_rate_limit key capacity refill_rate).body =
      some [("key", JsonVal.str key),
            ("capacity", JsonVal.int (capacity.getD 100)),
            ("refillRate", JsonVal.int (refill_rate.getD 10))] ∧
    ((RateLimiterClient.init b).check_rate_limit key none none).body =
      some [("key", JsonVal.str key),
            ("capacity", JsonVal.int 100),
            ("refillRate", JsonVal.int 10)] :=
  ⟨rfl, rfl, rfl, rfl⟩

/-- C5: penalty and reward POST to their endpoints with body exactly
`{"key": key, "points": points}`; points is the only operation-specific
parameter of either. -/
theorem c5_penalty_reward_request_shape (c : RateLimiterClient)
    (key : String) (points : Int) :
    (c.apply_penalty key points).method = "POST" ∧
    (c.apply_penalty key points).url = c.base_url ++ "/api/v1/limiter/penalty" ∧
    (c.apply_penalty key points).body =
      some [("key", JsonVal.str key), ("points", JsonVal.int points)] ∧
    (c.apply_reward key points).method = "POST" ∧
    (c.apply_reward key points).url = c.base_url ++ "/api/v1/limiter/reward" ∧
    (c.apply_reward key points).body =
      some [("key", JsonVal.str key), ("points", JsonVal.int points)] :=
  ⟨rfl, rfl, rfl, rfl, rfl, rfl⟩

/-- C6: block POSTs exactly `{"key": key, "duration": duration}` to the
block endpoint, and unblock POSTs exactly `{"key": key}` with no other
fields to the unblock endpoint. -/
theorem c6_block_unblock_request_shape (c : RateLimiterClient)
    (key : String) (duration : Int) :
    (c.block_key key duration).method = "POST" ∧
    (c.block_key key duration).url = c.base_url ++ "/api/v1/limiter/block" ∧
    (c.block_key key duration).body =
      some [("key", JsonVal.str key), ("duration", JsonVal.int duration)] ∧
    (c.unblock_key key).method = "POST" ∧
    (c.unblock_key key).url = c.base_url ++ "/api/v1/limiter/unblock" ∧
    (c.unblock_key key).body = some [("key", JsonVal.str key)] :=
  ⟨rfl, rfl, rfl, rfl, rfl, rfl⟩

/-- C7: health_check and get_metrics issue GET requests with no body and
leave the client state unchanged. -/
theorem c7_health_metrics_readonly (c : RateLimiterClient) :
    (c.run Op.health).1.method = "GET" ∧
    (c.run Op.health).1.body = none ∧
    (c.run Op.health).2 = c ∧
    (c.run Op.metrics).1.method = "GET" ∧
    (c.run Op.metrics).1.body = none ∧
    (c.run Op.metrics).2 = c :=
  ⟨rfl, rfl, rfl, rfl, rfl, rfl⟩

/-- C10: the client validates nothing locally — every integer argument,
negative values included, is transmitted unchanged in the request body, and
each method totally produces a request (there is no client-side
InvalidArgument path). -/
theorem c10_no_client_side_validation (c : RateLimiterClient) (key : String)
    (points : Int) (duration : Int) (cap : Int) (rr : Int) :
    (c.apply_penalty key points).body =
      some [("key", JsonVal.str key), ("points", JsonVal.int points)] ∧
    (c.apply_reward key points).body =
      some [("key", JsonVal.str key), ("points", JsonVal.int points)] ∧
    (c.block_key key duration).body =
      some [("key", JsonVal.str key), ("duration", JsonVal.int duration)] ∧
    (c.check_rate_limit key (some cap) (some rr)).body =
      some [("key", JsonVal.str key), ("capacity", JsonVal.int cap),
            ("refillRate", JsonVal.int rr)] :=
  ⟨rfl, rfl, rfl, rfl⟩

/-- C1: the client's interface is exactly the nine per-key operations
check, penalty, reward, block, unblock, status, reset, delete, list plus
the two process-wide queries health and metrics; every per-key operation
except list takes the key as its first argument, and list, health and
metrics take no key. -/
theorem c1_operation_catalog :
    Fintype.card OpName = 11 ∧
    perKeyNames.length = 9 ∧
    processWideNames.length = 2 ∧
    (perKeyNames ++ processWideNames).Nodup ∧
    (∀ n : OpName, n ∈ perKeyNames ++ processWideNames) ∧
    (∀ n : OpName, ∃ op : Op, op.name = n) ∧
    (∀ op : Op, op.keyArg.isSome = true ↔
      (op.name ∈ perKeyNames ∧ op.name ≠ OpName.list)) ∧
    (∀ k cap rr, (Op.check k cap rr).keyArg = some k) ∧
    (∀ k p, (Op.penalty k p).keyArg = some k) ∧
    (∀ k p, (Op.reward k p).keyArg = some k) ∧
    (∀ k d, (Op.block k d).keyArg = some k) ∧
    (∀ k, (Op.unblock k).keyArg = some k) ∧
    (∀ k, (Op.status k).keyArg = some k) ∧
    (∀ k, (Op.reset k).keyArg = some k) ∧
    (∀ k, (Op.delete k).keyArg = some k) ∧
    Op.keyArg Op.list = none := by
  refine ⟨by decide, by decide, by decide, by decide, by decide, ?_, ?_,
    fun k cap rr => rfl, fun k p => rfl, fun k p => rfl, fun k d => rfl,
    fun k => rfl, fun k => rfl, fun k => rfl, fun k => rfl, rfl⟩
  · intro n
    cases n with
    | check => exact ⟨Op.check ("") none none, rfl⟩
    | penalty => exact ⟨Op.penalty ("") 0, rfl⟩
    | reward => exact ⟨Op.reward ("") 0, rfl⟩
    | block => exact ⟨Op.block ("") 0, rfl⟩
    | unblock => exact ⟨Op.unblock (""), rfl⟩
    | status => exact ⟨Op.status (""), rfl⟩
    | reset => exact ⟨Op.reset (""), rfl⟩
    | delete => exact ⟨Op.delete (""), rfl⟩
    | list => exact ⟨Op.list, rfl⟩
    | health => exact ⟨Op.health, rfl⟩
    | metrics => exact ⟨Op.metrics, rfl⟩
  · intro op
    cases op <;> simp [Op.keyArg, Op.name, perKeyNames]

/-- C8: status, reset and delete splice the raw key into the URL path (no
percent-encoding), while check, penalty, reward, block and unblock carry
the key in the JSON body and use key-independent URLs; consequently raw
keys containing a slash make distinct operations and keys collide on the
same URL, as the final two conjuncts exhibit. -/
theorem c8_raw_key_in_path (c : RateLimiterClient) (k : String)
    (cap : Option Int) (rr : Option Int) (p : Int) (d : Int) :
    (c.get_status k).url = c.base_url ++ "/api/v1/limiter/status/" ++ k ∧
    (c.reset_limiter k).url = c.base_url ++ "/api/v1/limiter/reset/" ++ k ∧
    (c.delete_limiter k).url = c.base_url ++ "/api/v1/limiter/" ++ k ∧
    (c.check_rate_limit k cap rr).url = c.base_url ++ "/api/v1/limiter/check" ∧
    (c.check_rate_limit k cap rr).keyField = some (JsonVal.str k) ∧
    (c.apply_penalty k p).url = c.base_url ++ "/api/v1/limiter/penalty" ∧
    (c.apply_penalty k p).keyField = some (JsonVal.str k) ∧
    (c.apply_reward k p).url = c.base_url ++ "/api/v1/limiter/reward" ∧
    (c.apply_reward k p).keyField = some (JsonVal.str k) ∧
    (c.block_key k d).url = c.base_url ++ "/api/v1/limiter/block" ∧
    (c.block_key k d).keyField = some (JsonVal.str k) ∧
    (c.unblock_key k).url = c.base_url ++ "/api/v1/limiter/unblock" ∧
    (c.unblock_key k).keyField = some (JsonVal.str k) ∧
    (c.delete_limiter ("status/" ++ k)).url = (c.get_status k).url ∧
    ("status/" ++ k) ≠ k := by
  refine ⟨rfl, rfl, rfl, rfl, rfl, rfl, rfl, rfl, rfl, rfl, rfl, rfl, rfl,
    ?_, ?_⟩
  · show c.base_url ++ "/api/v1/limiter/" ++ ("status/" ++ k) =
      c.base_url ++ "/api/v1/limiter/status/" ++ k
    simp only [String.append_assoc]
    rw [← String.append_assoc ("/api/v1/limiter/") ("status/") k]
    have hlit : ("/api/v1/limiter/" : String) ++ "status/" = "/api/v1/limiter/status/" := by
      decide
    rw [hlit]
  · intro h
    have hlen := congrArg String.length h
    rw [String.length_append] at hlen
    have h7 : ("status/" : String).length = 7 := rfl
    rw [h7] at hlen
    omega

/-- C9: the constructor strips all trailing slashes from the base URL, so a
client built from a base URL with any number of appended trailing slashes
builds exactly the same request URL for every operation as one built from
the bare base URL. -/
theorem c9_trailing_slashes_ignored (b : String) (n : Nat) (op : Op) :
    ((RateLimiterClient.init (b ++ slashes n)).dispatch op).url =
      ((RateLimiterClient.init b).dispatch op).url := by
  have h : RateLimiterClient.init (b ++ slashes n) = RateLimiterClient.init b := by
    unfold RateLimiterClient.init
    rw [rstripSlashes_append_slashes]
  rw [h]

/-- Refilling under a monotonic clock keeps the bucket well-formed. -/
theorem bucketInv_refill (b : Bucket) (now : Rat) (hb : BucketInv b)
    (h : b.lastRefillAt ≤ now) : BucketInv (b.refill now) := by
  obtain ⟨h0, h1, h2⟩ := hb
  have hre : 0 ≤ (now - b.lastRefillAt) / 1000 * b.refillRate :=
    mul_nonneg (div_nonneg (sub_nonneg.mpr h) (by norm_num)) h2
  exact ⟨le_min (h0.trans h1) (by linarith), min_le_left _ _, h2⟩

/-- Reconfiguration with a positive capacity and non-negative refill rate
keeps the bucket well-formed: a capacity change clamps tokens down. -/
theorem bucketInv_applyConfig (b : Bucket) (cap : Option Rat)
    (rr : Option Rat) (hb : BucketInv b) (hc : capOk cap) (hr : rrOk rr) :
    BucketInv (b.applyConfig cap rr) := by
  obtain ⟨h0, h1, h2⟩ := hb
  cases cap with
  | none =>
    cases rr with
    | none => exact ⟨h0, h1, h2⟩
    | some r => exact ⟨h0, h1, hr⟩
  | some cv =>
    have hcv : (0 : Rat) < cv := hc
    cases rr with
    | none => exact ⟨le_min h0 hcv.le, min_le_right _ _, h2⟩
    | some r => exact ⟨le_min h0 hcv.le, min_le_right _ _, hr⟩

/-- Reconfiguration does not touch the refill timestamp. -/
theorem applyConfig_lastRefillAt (b : Bucket) (cap : Option Rat)
    (rr : Option Rat) :
    (b.applyConfig cap rr).lastRefillAt = b.lastRefillAt := by
  cases cap <;> cases rr <;> rfl

/-- A check with valid inputs keeps the bucket well-formed. -/
theorem bucketInv_check (b : Bucket) (now : Rat) (cap : Option Rat)
    (rr : Option Rat) (hb : BucketInv b) (hnow : b.lastRefillAt ≤ now)
    (hc : capOk cap) (hr : rrOk rr) : BucketInv (b.check now cap rr).2 := by
  have h1 : BucketInv (b.applyConfig cap rr) :=
    bucketInv_applyConfig b cap rr hb hc hr
  have hlr : (b.applyConfig cap rr).lastRefillAt ≤ now := by
    rw [applyConfig_lastRefillAt]
    exact hnow
  have h2 : BucketInv ((b.applyConfig cap rr).refill now) :=
    bucketInv_refill (b.applyConfig cap rr) now h1 hlr
  unfold Bucket.check
  by_cases hbl : (b.applyConfig cap rr).isBlocked now = true
  · simp only [hbl, if_true]
    exact h1
  · simp only [hbl, if_false, Bool.false_eq_true]
    by_cases ht : (1 : Rat) ≤ ((b.applyConfig cap rr).refill now).tokens
    · simp only [ht, if_true]
      obtain ⟨g0, g1, g2⟩ := h2
      refine ⟨?_, ?_, g2⟩
      · show (0 : Rat) ≤ ((b.applyConfig cap rr).refill now).tokens - 1
        linarith
      · show ((b.applyConfig cap rr).refill now).tokens - 1 ≤
          ((b.applyConfig cap rr).refill now).capacity
        linarith
    · simp only [ht, if_false]
      exact h2

/-- Every valid engine operation keeps the bucket well-formed. -/
theorem bucketInv_applyOp (b : Bucket) (op : EOp) (hb : BucketInv b)
    (hv : EOp.validFor b op) : BucketInv (b.applyOp op) := by
  obtain ⟨h0, h1, h2⟩ := hb
  cases op with
  | check now cap rr =>
    obtain ⟨hnow, hc, hr⟩ := hv
    exact bucketInv_check b now cap rr ⟨h0, h1, h2⟩ hnow hc hr
  | penalty p =>
    have hp : (0 : Rat) ≤ p := hv
    refine ⟨le_max_left _ _, ?_, h2⟩
    show max 0 (b.tokens - p) ≤ b.capacity
    exact max_le (h0.trans h1) (by linarith)
  | reward p =>
    have hp : (0 : Rat) ≤ p := hv
    exact ⟨le_min (h0.trans h1) (by linarith), min_le_left _ _, h2⟩
  | block now d => exact ⟨h0, h1, h2⟩
  | unblock => exact ⟨h0, h1, h2⟩
  | reset now => exact ⟨h0.trans h1, le_refl _, h2⟩

/-- Bucket well-formedness is preserved along any valid operation trace. -/
theorem bucketInv_applyOps (b : Bucket) (ops : List EOp) (hb : BucketInv b)
    (hv : b.validTrace ops) : BucketInv (b.applyOps ops) := by
  induction ops generalizing b with
  | nil => exact hb
  | cons op ops ih =>
    obtain ⟨hv1, hv2⟩ := hv
    exact ih (b.applyOp op) (bucketInv_applyOp b op hb hv1) hv2

/-- C3 (amended): after any valid sequence of engine operations on a
well-formed bucket, tokens stay within zero and capacity; and a block of
strictly positive duration sets blockedUntil strictly after the event that
set it.  The original strict-future claim fails for the zero duration the
spec itself allows, as the separate counterexample shows. -/
theorem c3_invariant_and_block (b : Bucket) (ops : List EOp)
    (hb : BucketInv b) (hv : b.validTrace ops) :
    (0 ≤ (b.applyOps ops).tokens ∧
      (b.applyOps ops).tokens ≤ (b.applyOps ops).capacity) ∧
    (∀ now d : Rat, 0 < d →
      ((b.applyOps ops).block now d).blockedUntil = some (now + d) ∧
        now < now + d) := by
  have h := bucketInv_applyOps b ops hb hv
  exact ⟨⟨h.1, h.2.1⟩, fun now d hd => ⟨rfl, by linarith⟩⟩

/-- C3 counterexample: the spec allows a block of duration zero, and that
block sets blockedUntil to the exact time of the event, not strictly in
the future — with the bucket otherwise well-formed and the operation valid. -/
theorem c3_zero_duration_counterexample :
    BucketInv (Bucket.create ("k") 5 1 0) ∧
    EOp.validFor (Bucket.create ("k") 5 1 0) (EOp.block 0 0) ∧
    ((Bucket.create ("k") 5 1 0).applyOp (EOp.block 0 0)).blockedUntil =
      some 0 ∧
    ¬ ((0 : Rat) < 0) := by
  refine ⟨⟨?_, ?_, ?_⟩, ?_, ?_, lt_irrefl 0⟩
  · show (0 : Rat) ≤ 5
    norm_num
  · show (5 : Rat) ≤ 5
    norm_num
  · show (0 : Rat) ≤ 1
    norm_num
  · show (0 : Rat) ≤ 0
    norm_num
  · show some ((0 : Rat) + 0) = some 0
    norm_num

/-- C3 witness: a concrete valid trace on a concrete well-formed bucket,
with the invariant and the positive-duration block conclusion instantiated. -/
theorem c3_witness :
    (0 ≤ ((Bucket.create ("w") 5 1 0).applyOps
        [EOp.penalty 2, EOp.block 3 10, EOp.unblock, EOp.reset 6]).tokens ∧
      ((Bucket.create ("w") 5 1 0).applyOps
        [EOp.penalty 2, EOp.block 3 10, EOp.unblock, EOp.reset 6]).tokens ≤
      ((Bucket.create ("w") 5 1 0).applyOps
        [EOp.penalty 2, EOp.block 3 10, EOp.unblock, EOp.reset 6]).capacity) ∧
    ((((Bucket.create ("w") 5 1 0).applyOps
        [EOp.penalty 2, EOp.block 3 10, EOp.unblock, EOp.reset 6]).block 7 3).blockedUntil =
      some (7 + 3) ∧ (7 : Rat) < 7 + 3) := by
  have h := c3_invariant_and_block (Bucket.create ("w") 5 1 0)
    [EOp.penalty 2, EOp.block 3 10, EOp.unblock, EOp.reset 6]
    ⟨(by norm_num : (0 : Rat) ≤ 5), (by norm_num : (5 : Rat) ≤ 5),
      (by norm_num : (0 : Rat) ≤ 1)⟩
    ⟨(by norm_num : (0 : Rat) ≤ 2), (by norm_num : (0 : Rat) ≤ 10),
      trivial, trivial, trivial⟩
  exact ⟨h.1, h.2 7 3 (by norm_num)⟩

/-- C4: on a fresh key with capacity 5 and refill rate 1, six checks in a
negligible time window give five allowed results and then a denial whose
reason is rate_limited. -/
theorem c4_fresh_key_exhaustion :
    demoChecks.map (fun r => (r.allowed, r.reason)) =
      [(true, none), (true, none), (true, none), (true, none), (true, none),
        (false, some ("rate_limited"))] := by
  norm_num [demoChecks, runChecks, Bucket.check, Bucket.applyConfig,
    Bucket.isBlocked, Bucket.refill, Bucket.create, min_def, max_def]

end RateLimiter
